import Mathlib

/-!
Verification development for the Parking-Finder repository.

The definitions below are a shallow embedding of the spot lifecycle and
staleness engine found in ParkingFinderApp/app/screens/Map.tsx and
ParkingFinderApp/parkingReports.ts.  JavaScript numbers that can be
non-finite are modelled by the type JSNum; timestamps are integers of
milliseconds; coordinates are rationals (the JS doubles occurring in the
checked range behave like exact rationals for every comparison the code
performs).  Math.floor of a real quotient x / 1000 is modelled by integer
floor division, and Math.floor of d * 0.9 is modelled by the rational
floor of 9 * d / 10, which agrees with the double computation for every
duration magnitude the application can produce.
-/

namespace ParkingFinder

/-- Values accepted by getTimeInMillis (Map.tsx lines 295 to 301): a falsy
value (null, undefined, 0), a Firestore timestamp object with a truthy
seconds field, or a plain (nonzero) number of milliseconds. -/
inductive TimeData
  | missing
  | fsTimestamp (seconds : Int)
  | millis (n : Int)
deriving DecidableEq, Repr

/-- Embedding of getTimeInMillis (Map.tsx lines 295 to 301).  A falsy input
yields Date.now(); an object with a truthy seconds field yields
seconds * 1000; a plain number is returned as is. -/
def getTimeInMillis (now : Int) : TimeData → Int
  | .missing => now
  | .fsTimestamp s => s * 1000
  | .millis n => n

/-- Embedding of getAgeInSeconds (Map.tsx lines 303 to 306):
Math.floor((Date.now() - timeInMillis) / 1000). -/
def getAgeInSeconds (now : Int) (createdAt : TimeData) : Int :=
  Int.fdiv (now - getTimeInMillis now createdAt) 1000

/-- The record returned by getPinStatus (Map.tsx lines 391 to 402). -/
structure PinStatusR where
  color : String
  expired : Bool
  warning : Bool
  age : Int
deriving DecidableEq, Repr

/-- Math.floor(durationSeconds * 0.9) from Map.tsx line 393, modelled as the
rational floor of 9 * d / 10. -/
def warningThreshold (durationSeconds : Int) : Int :=
  Int.fdiv (9 * durationSeconds) 10

/-- Embedding of getPinStatus (Map.tsx lines 391 to 402).  The checks run in
source order: expired first, then warning, else fresh. -/
def getPinStatus (now : Int) (createdAt : TimeData) (durationSeconds : Int) :
    PinStatusR :=
  let age := getAgeInSeconds now createdAt
  if durationSeconds ≤ age then
    { color := "#999999", expired := true, warning := false, age := age }
  else if warningThreshold durationSeconds ≤ age then
    { color := "#FF0000", expired := false, warning := true, age := age }
  else
    { color := "#00FF00", expired := false, warning := false, age := age }

/-- Rank of a pin status in the fresh, expiring, expired progression. -/
def statusRank (r : PinStatusR) : Nat :=
  if r.expired then 2 else if r.warning then 1 else 0

theorem getPinStatus_eq (now : Int) (t : TimeData) (d : Int) :
    getPinStatus now t d =
      (if d ≤ getAgeInSeconds now t then
        { color := "#999999", expired := true, warning := false,
          age := getAgeInSeconds now t }
      else if warningThreshold d ≤ getAgeInSeconds now t then
        { color := "#FF0000", expired := false, warning := true,
          age := getAgeInSeconds now t }
      else
        { color := "#00FF00", expired := false, warning := false,
          age := getAgeInSeconds now t }) := rfl

theorem statusRank_getPinStatus (now : Int) (t : TimeData) (d : Int) :
    statusRank (getPinStatus now t d) =
      (if d ≤ getAgeInSeconds now t then 2
       else if warningThreshold d ≤ getAgeInSeconds now t then 1
       else 0) := by
  rw [getPinStatus_eq]
  unfold statusRank
  split_ifs <;> simp_all

theorem getAgeInSeconds_eq_ediv (now : Int) (t : TimeData) :
    getAgeInSeconds now t = (now - getTimeInMillis now t) / 1000 := by
  unfold getAgeInSeconds
  exact Int.fdiv_eq_ediv _ (by norm_num)

theorem getAgeInSeconds_mono (t : TimeData) {n1 n2 : Int} (h : n1 ≤ n2) :
    getAgeInSeconds n1 t ≤ getAgeInSeconds n2 t := by
  rw [getAgeInSeconds_eq_ediv, getAgeInSeconds_eq_ediv]
  cases t with
  | missing => simp [getTimeInMillis]
  | fsTimestamp s => exact Int.ediv_le_ediv (by norm_num) (by simp [getTimeInMillis]; omega)
  | millis n => exact Int.ediv_le_ediv (by norm_num) (by simp [getTimeInMillis]; omega)

/-- Claim C1: with no claim set, the lifecycle evaluator getPinStatus with
age = getAgeInSeconds reports expired iff age is at least durationSeconds,
expiring iff floor(durationSeconds * 0.9) is at most age and age is below
durationSeconds, and fresh otherwise; with durationSeconds 30 it is fresh
with age 0 at now = createdAt, expiring at createdAt + 27 seconds, and
expired at createdAt + 30 seconds. -/
theorem getPinStatus_spec (createdAt : TimeData) (d now : Int) :
    ((getPinStatus now createdAt d).expired = true ↔
      d ≤ getAgeInSeconds now createdAt)
    ∧ ((getPinStatus now createdAt d).warning = true ↔
      (warningThreshold d ≤ getAgeInSeconds now createdAt
        ∧ getAgeInSeconds now createdAt < d))
    ∧ (((getPinStatus now createdAt d).expired = false
        ∧ (getPinStatus now createdAt d).warning = false) ↔
      (getAgeInSeconds now createdAt < warningThreshold d
        ∧ getAgeInSeconds now createdAt < d))
    ∧ (getPinStatus 1000000 (.millis 1000000) 30 =
      { color := "#00FF00", expired := false, warning := false, age := 0 })
    ∧ (getPinStatus 1027000 (.millis 1000000) 30 =
      { color := "#FF0000", expired := false, warning := true, age := 27 })
    ∧ (getPinStatus 1030000 (.millis 1000000) 30 =
      { color := "#999999", expired := true, warning := false, age := 30 }) := by
  refine ⟨?_, ?_, ?_, by decide, by decide, by decide⟩ <;>
    · rw [getPinStatus_eq]
      split_ifs with h1 h2 <;> simp_all <;> omega

/-- Claim C2 counterexample: getAgeInSeconds performs no clamping.  At
now = 0 with createdAt 2000 milliseconds in the future the returned age is
-2, which is negative, contradicting the claim that the age is clamped
to 0 when createdAt lies in the future of now. -/
theorem getAgeInSeconds_not_clamped :
    getAgeInSeconds 0 (.millis 2000) = -2 ∧ getAgeInSeconds 0 (.millis 2000) < 0 := by
  constructor <;> decide

/-- Claim C2 amended: the age equals now - createdAt floored to whole
seconds, with no clamping: whenever a numeric createdAt lies strictly in
the future of now the returned age is negative (a Firestore timestamp
behaves the same through seconds * 1000, and a falsy createdAt yields
age 0 because getTimeInMillis substitutes Date.now()). -/
theorem getAgeInSeconds_floor (now t s : Int) :
    getAgeInSeconds now (.millis t) = Int.fdiv (now - t) 1000
    ∧ (now < t → getAgeInSeconds now (.millis t) < 0)
    ∧ getAgeInSeconds now (.fsTimestamp s) = Int.fdiv (now - s * 1000) 1000
    ∧ (now < s * 1000 → getAgeInSeconds now (.fsTimestamp s) < 0)
    ∧ getAgeInSeconds now .missing = 0 := by
  have hm : ∀ a b : Int, a < b → Int.fdiv (a - b) 1000 < 0 := by
    intro a b hab
    rw [Int.fdiv_eq_ediv _ (by norm_num)]
    omega
  refine ⟨rfl, fun h => hm now t h, rfl, fun h => hm now (s * 1000) h, ?_⟩
  simp [getAgeInSeconds, getTimeInMillis]

/-- Witness for the amended claim C2 at concrete inputs. -/
theorem getAgeInSeconds_floor_witness :
    getAgeInSeconds 0 (.millis 2000) = Int.fdiv (0 - 2000) 1000
    ∧ getAgeInSeconds 0 (.millis 2000) < 0 :=
  ⟨(getAgeInSeconds_floor 0 2000 0).1,
   (getAgeInSeconds_floor 0 2000 0).2.1 (by decide)⟩

/-- Claim C4: for a fixed createdAt and durationSeconds with no claim set,
the status computed by getPinStatus is monotonic in now: it only ever
progresses fresh, then expiring, then expired as now increases. -/
theorem getPinStatus_monotone (createdAt : TimeData) (d : Int) {n1 n2 : Int}
    (h : n1 ≤ n2) :
    statusRank (getPinStatus n1 createdAt d) ≤
      statusRank (getPinStatus n2 createdAt d) := by
  have hage := getAgeInSeconds_mono createdAt h
  rw [statusRank_getPinStatus, statusRank_getPinStatus]
  split_ifs <;> omega

/-- Witness for claim C4 at concrete inputs. -/
theorem getPinStatus_monotone_witness :
    statusRank (getPinStatus 1010000 (.millis 1000000) 30) ≤
      statusRank (getPinStatus 1029000 (.millis 1000000) 30) :=
  getPinStatus_monotone (.millis 1000000) 30 (by decide)

/-! ## Coordinate firewall, stores and reports -/

/-- A JavaScript number as far as the coordinate firewall can observe it:
finite (an exact rational) or one of the non-finite values.  The string
coercion performed by Number(x) on string inputs yields one of these
values, so string inputs are represented by their coerced value. -/
inductive JSNum
  | num (q : Rat)
  | nan
  | inf
  | negInf
deriving DecidableEq, Repr

/-- Embedding of sanitizeCoord (parkingReports.ts lines 104 to 113):
non-finite values are rejected, then the latitude range -90..90 and the
longitude range -180..180 are enforced. -/
def sanitizeCoord (lat lon : JSNum) : Option (Rat × Rat) :=
  match lat, lon with
  | .num latitude, .num longitude =>
    if latitude < -90 ∨ 90 < latitude then none
    else if longitude < -180 ∨ 180 < longitude then none
    else some (latitude, longitude)
  | _, _ => none

/-- Embedding of safeCoord (Map.tsx lines 280 to 292), whose body is
character for character the body of sanitizeCoord. -/
def safeCoord (lat lon : JSNum) : Option (Rat × Rat) :=
  sanitizeCoord lat lon

/-- A coordinate pair lies in the legal ranges. -/
def validCoordB (la lo : Rat) : Bool :=
  decide (-90 ≤ la ∧ la ≤ 90 ∧ -180 ≤ lo ∧ lo ≤ 180)

theorem sanitizeCoord_valid {lat lon : JSNum} {c : Rat × Rat}
    (h : sanitizeCoord lat lon = some c) : validCoordB c.1 c.2 = true := by
  cases lat with
  | num la =>
    cases lon with
    | num lo =>
      simp only [sanitizeCoord] at h
      split_ifs at h with h1 h2
      push_neg at h1 h2
      have hc : (la, lo) = c := by simpa using h
      subst hc
      simp only [validCoordB, decide_eq_true_eq]
      exact ⟨h1.1, h1.2, h2.1, h2.2⟩
    | nan => exact absurd h (by simp [sanitizeCoord])
    | inf => exact absurd h (by simp [sanitizeCoord])
    | negInf => exact absurd h (by simp [sanitizeCoord])
  | nan => exact absurd h (by simp [sanitizeCoord])
  | inf => exact absurd h (by simp [sanitizeCoord])
  | negInf => exact absurd h (by simp [sanitizeCoord])

/-- Spot kind: free or paid. -/
inductive SpotType
  | free
  | paid
deriving DecidableEq, Repr

/-- Remote report status. -/
inductive RStatus
  | open
  | resolved
deriving DecidableEq, Repr

/-- Embedding of the ParkingSpot record (Map.tsx lines 47 to 57). -/
structure ParkingSpot where
  id : String
  latitude : Rat
  longitude : Rat
  type : SpotType
  rate : Option String
  createdAt : TimeData
  version : Int
  durationSeconds : Int
  firestoreId : Option String
deriving DecidableEq, Repr

/-- The JS expression d || 30 on a number d: 30 is substituted for the
falsy value 0. -/
def effectiveDuration (d : Int) : Int :=
  if d = 0 then 30 else d

/-- The JS expression d || 30 when the field d may also be absent. -/
def durationOr30 : Option Int → Int
  | none => 30
  | some d => effectiveDuration d

/-- Embedding of the expiration sweep inside checkAlertsAndExpiration
(Map.tsx lines 432 to 449): the store keeps exactly the spots whose age is
still below their (defaulted) duration. -/
def sweepExpired (now : Int) (spots : List ParkingSpot) : List ParkingSpot :=
  spots.filter fun spot =>
    decide (getAgeInSeconds now spot.createdAt <
      effectiveDuration spot.durationSeconds)

/-- The aggregate count of removed records reported by the sweep. -/
def sweepRemovedCount (now : Int) (spots : List ParkingSpot) : Nat :=
  spots.length - (sweepExpired now spots).length

/-- Claim C9: the expiration sweep is idempotent at a fixed now: a second
sweep with no time passing removes 0 records, every record the first sweep
keeps still satisfies age below duration, and the swept list is unchanged
by sweeping again. -/
theorem sweepExpired_idempotent (now : Int) (spots : List ParkingSpot) :
    sweepExpired now (sweepExpired now spots) = sweepExpired now spots
    ∧ sweepRemovedCount now (sweepExpired now spots) = 0
    ∧ ((sweepExpired now spots).all fun spot =>
        decide (getAgeInSeconds now spot.createdAt <
          effectiveDuration spot.durationSeconds)) = true := by
  have hidem : sweepExpired now (sweepExpired now spots) = sweepExpired now spots := by
    unfold sweepExpired
    rw [List.filter_filter]
    simp
  refine ⟨hidem, ?_, ?_⟩
  · unfold sweepRemovedCount
    rw [hidem]
    exact Nat.sub_self _
  · rw [List.all_eq_true]
    intro x hx
    exact (List.mem_filter.mp hx).2

/-- A raw spot as parsed from on-device storage (Map.tsx lines 631 to 650):
untrusted coordinates and a possibly absent duration. -/
structure RawSpot where
  id : String
  latitude : JSNum
  longitude : JSNum
  type : SpotType
  rate : Option String
  createdAt : TimeData
  durationSeconds : Option Int
  firestoreId : Option String
deriving DecidableEq, Repr

/-- Embedding of the restore-from-storage path (Map.tsx lines 635 to 648):
each parsed spot passes through safeCoord and is dropped when the check
fails; version is reset to 0 and the duration is defaulted with || 30. -/
def restoreSpots (parsed : List RawSpot) : List ParkingSpot :=
  parsed.filterMap fun spot =>
    match safeCoord spot.latitude spot.longitude with
    | none => none
    | some coord =>
      some { id := spot.id, latitude := coord.1, longitude := coord.2,
             type := spot.type, rate := spot.rate, createdAt := spot.createdAt,
             version := 0,
             durationSeconds := durationOr30 spot.durationSeconds,
             firestoreId := spot.firestoreId }

/-- A Firestore document of the parkingReports collection together with
its id, as the subscriptions read it: every data field is untrusted. -/
structure ReportDoc where
  id : String
  userId : String
  latitude : JSNum
  longitude : JSNum
  geohash : String
  type : SpotType
  rate : Option String
  status : Option RStatus
  createdAt : TimeData
  durationSeconds : Option Int
deriving DecidableEq, Repr

/-- The ParkingReport value delivered to the app (parkingReports.ts lines
123 to 136) after defaulting. -/
structure ParkingReport where
  id : String
  userId : String
  latitude : Rat
  longitude : Rat
  geohash : String
  type : SpotType
  rate : Option String
  status : RStatus
  createdAt : TimeData
  durationSeconds : Int
deriving DecidableEq, Repr

/-- A latitude and longitude bounding box (parkingReports.ts lines 18
to 23). -/
structure Bounds where
  minLat : Rat
  maxLat : Rat
  minLng : Rat
  maxLng : Rat
deriving DecidableEq, Repr

/-- The map region (center plus deltas). -/
structure Region where
  latitude : Rat
  longitude : Rat
  latitudeDelta : Rat
  longitudeDelta : Rat
deriving DecidableEq, Repr

/-- Embedding of regionToBounds (Map.tsx lines 341 to 348). -/
def regionToBounds (r : Region) : Bounds :=
  { minLat := r.latitude - r.latitudeDelta / 2,
    maxLat := r.latitude + r.latitudeDelta / 2,
    minLng := r.longitude - r.longitudeDelta / 2,
    maxLng := r.longitude + r.longitudeDelta / 2 }

/-- Embedding of subscribeToParkingReports (parkingReports.ts lines 190 to
232), the subscription the map screen actually uses.  The snapshot is the
list of documents the query returns; the query orders the whole collection
by createdAt and applies no bounding-box constraint and no status
constraint, so the bounds argument is received and never used.  Each
document passes through sanitizeCoord and is dropped on failure; rate,
status and durationSeconds are defaulted as in the source. -/
def subscribeToParkingReports (bounds : Bounds) (snap : List ReportDoc) :
    List ParkingReport :=
  snap.filterMap fun d =>
    match sanitizeCoord d.latitude d.longitude with
    | none => none
    | some coord =>
      some { id := d.id, userId := d.userId,
             latitude := coord.1, longitude := coord.2,
             geohash := d.geohash, type := d.type, rate := d.rate,
             status := d.status.getD .open, createdAt := d.createdAt,
             durationSeconds := d.durationSeconds.getD 30 }

/-- Claim C8 (code bug): the subscription used by the map ignores its
bounds argument, so a report far outside the requested box is delivered
anyway.  With bounds 0..1 by 0..1 a document at latitude 50 is delivered
with latitude 50, which exceeds maxLat. -/
theorem subscribeToParkingReports_ignores_bounds :
    ((subscribeToParkingReports
        { minLat := 0, maxLat := 1, minLng := 0, maxLng := 1 }
        [{ id := "D1", userId := "u", latitude := .num 50, longitude := .num 50,
           geohash := "g", type := .free, rate := none, status := some .open,
           createdAt := .millis 1, durationSeconds := some 60 }]).map
      fun r => r.latitude) = [(50 : Rat)]
    ∧ ¬((50 : Rat) ≤ 1) := by
  refine ⟨by decide, by norm_num⟩

/-- The data passed to createParkingReport (parkingReports.ts lines 115
to 121). -/
structure ParkingReportCreate where
  latitude : JSNum
  longitude : JSNum
  type : SpotType
  rate : Option String
  durationSeconds : Option Int
deriving DecidableEq, Repr

/-- Embedding of createParkingReport (parkingReports.ts lines 138 to 162).
The signed-in user, the geohash computed by the geofire library, the
server timestamp and the outcome of the addDoc network call are inputs of
the model.  On success the result is the new document id together with the
document the call stored. -/
def createParkingReport (user : Option String) (data : ParkingReportCreate)
    (geohash : String) (serverTime : TimeData) (netOk : Bool)
    (newId : String) : Except String (String × ReportDoc) :=
  match user with
  | none => .error "Not logged in (FIREBASE_AUTH.currentUser is null)"
  | some uid =>
    match sanitizeCoord data.latitude data.longitude with
    | none => .error "Invalid coordinates"
    | some coord =>
      if netOk then
        .ok (newId,
          { id := newId, userId := uid,
            latitude := .num coord.1, longitude := .num coord.2,
            geohash := geohash, type := data.type,
            rate := match data.type with
              | .paid => some (data.rate.getD "")
              | .free => none,
            status := some .open, createdAt := serverTime,
            durationSeconds := some (data.durationSeconds.getD 30) })
      else .error "network failure"

/-- The last reported spot pointer (Map.tsx lines 62 to 67). -/
structure LastReported where
  firestoreId : String
  latitude : Rat
  longitude : Rat
  createdAt : Int
deriving DecidableEq, Repr

/-- Embedding of saveSpot (Map.tsx lines 809 to 873).  The early returns
(no pending coordinate, a save already in progress, a zero total duration)
leave the store unchanged.  Otherwise the new spot is built from the
pending coordinate without any coordinate check, the remote create is
attempted, and the spot is appended to the store on BOTH branches: with
the firestoreId on success, and without it when the remote create throws
(including the invalid-coordinate throw). -/
def saveSpot (spots : List ParkingSpot) (pendingCoord : Option (Rat × Rat))
    (isCreatingSpot : Bool) (hours minutes seconds : Int)
    (spotType : SpotType) (rate : String) (timestamp : Int) (localId : String)
    (user : Option String) (geohash : String) (serverTime : TimeData)
    (netOk : Bool) (newId : String) (nowAtSuccess : Int) :
    List ParkingSpot × Option LastReported :=
  match pendingCoord with
  | none => (spots, none)
  | some pc =>
    if isCreatingSpot then (spots, none)
    else
      let totalSeconds := hours * 3600 + minutes * 60 + seconds
      if totalSeconds = 0 then (spots, none)
      else
        let newSpot : ParkingSpot :=
          { id := localId, latitude := pc.1, longitude := pc.2,
            type := spotType,
            rate := match spotType with
              | .paid => some rate.trim
              | .free => none,
            createdAt := .millis timestamp, version := 0,
            durationSeconds := totalSeconds, firestoreId := none }
        match createParkingReport user
            { latitude := .num pc.1, longitude := .num pc.2,
              type := spotType, rate := newSpot.rate,
              durationSeconds := some totalSeconds }
            geohash serverTime netOk newId with
        | .ok res =>
          (spots ++ [{ newSpot with firestoreId := some res.1 }],
           some { firestoreId := res.1, latitude := pc.1, longitude := pc.2,
                  createdAt := nowAtSuccess })
        | .error _ => (spots ++ [newSpot], none)

/-- Claim C3 counterexample: saveSpot at a pending coordinate with
latitude 200 inserts that record into the local store.  The remote create
rejects the coordinates, the catch branch runs, and the spot with
latitude 200 is appended with no coordinate check. -/
theorem saveSpot_firewall_counterexample :
    ((saveSpot [] (some (200, 0)) false 0 0 30 .free "" 1000 "L1"
        (some "u") "g" .missing true "R1" 1000).1.map
      fun s => s.latitude) = [(200 : Rat)]
    ∧ ¬((200 : Rat) ≤ 90) := by
  refine ⟨by decide, by norm_num⟩

theorem sanitizeCoord_num_eq {a b : Rat} {c : Rat × Rat}
    (h : sanitizeCoord (.num a) (.num b) = some c) : c = (a, b) := by
  simp only [sanitizeCoord] at h
  split_ifs at h
  simpa using h.symm

/-- Claim C3 amended: the restore-from-storage path and the remote
subscription never produce a record with out-of-range or non-finite
coordinates, and the success branch of saveSpot only stores
sanitizer-accepted coordinates; but the remote-failure branch of saveSpot
performs no coordinate check and inserts the record as is, so a record
with latitude 200 does enter the local spot store when the remote create
fails (in particular when it fails because of those very coordinates). -/
theorem coordinate_firewall_amended :
    (∀ parsed : List RawSpot,
      ((restoreSpots parsed).all fun s =>
        validCoordB s.latitude s.longitude) = true)
    ∧ (∀ bounds snap,
      ((subscribeToParkingReports bounds snap).all fun r =>
        validCoordB r.latitude r.longitude) = true)
    ∧ (∀ pendingCoord isCreating hours minutes seconds spotType rate timestamp
        localId user geohash serverTime netOk newId nowAtSuccess,
      (((saveSpot [] pendingCoord isCreating hours minutes seconds spotType
          rate timestamp localId user geohash serverTime netOk newId
          nowAtSuccess).1).all
        fun s => !s.firestoreId.isSome ||
          validCoordB s.latitude s.longitude) = true) := by
  refine ⟨?_, ?_, ?_⟩
  · intro parsed
    rw [List.all_eq_true]
    intro s hs
    rw [restoreSpots, List.mem_filterMap] at hs
    obtain ⟨raw, _, hmap⟩ := hs
    cases hcoord : safeCoord raw.latitude raw.longitude with
    | none => rw [hcoord] at hmap; simp at hmap
    | some coord =>
      rw [hcoord] at hmap
      simp only [Option.some_inj] at hmap
      subst hmap
      exact sanitizeCoord_valid (by simpa [safeCoord] using hcoord)
  · intro bounds snap
    rw [List.all_eq_true]
    intro r hr
    rw [subscribeToParkingReports, List.mem_filterMap] at hr
    obtain ⟨d, _, hmap⟩ := hr
    cases hcoord : sanitizeCoord d.latitude d.longitude with
    | none => rw [hcoord] at hmap; simp at hmap
    | some coord =>
      rw [hcoord] at hmap
      simp only [Option.some_inj] at hmap
      subst hmap
      exact sanitizeCoord_valid hcoord
  · intro pendingCoord isCreating hours minutes seconds spotType rate timestamp
      localId user geohash serverTime netOk newId nowAtSuccess
    cases pendingCoord with
    | none => simp [saveSpot]
    | some pc =>
      simp only [saveSpot]
      split_ifs with hcr hz
      · simp
      · simp
      · cases hres : createParkingReport user
            { latitude := .num pc.1, longitude := .num pc.2, type := spotType,
              rate := match spotType with
                | .paid => some rate.trim
                | .free => none,
              durationSeconds := some (hours * 3600 + minutes * 60 + seconds) }
            geohash serverTime netOk newId with
        | error e => simp [hres]
        | ok res =>
          simp only [hres, List.all_eq_true, List.mem_append, List.mem_singleton]
          rintro s (hs | rfl)
          · simp at hs
          · have hv : validCoordB pc.1 pc.2 = true := by
              revert hres
              cases user with
              | none => intro hres; simp [createParkingReport] at hres
              | some uid =>
                cases hsan : sanitizeCoord (.num pc.1) (.num pc.2) with
                | none => intro hres; simp [createParkingReport, hsan] at hres
                | some coord =>
                  intro _
                  have := sanitizeCoord_valid hsan
                  rwa [sanitizeCoord_num_eq hsan] at this
            simp [hv]

/-- Claim C10: a missing durationSeconds is replaced by 30 at creation
(createParkingReport stores request duration defaulted with the nullish
operator) and at every read of the remote feed (each delivered report
carries the stored duration defaulted with the nullish operator), the
status and rendering computations replace a missing or zero duration by
30 via the expression d || 30, and consequently every nonnegative input
yields a positive effective duration. -/
theorem defaultDuration_spec :
    (∀ user data geohash serverTime netOk newId res,
      createParkingReport user data geohash serverTime netOk newId = .ok res →
      res.2.durationSeconds = some (data.durationSeconds.getD 30))
    ∧ (∀ bounds snap r, r ∈ subscribeToParkingReports bounds snap →
      ∃ d ∈ snap, d.id = r.id ∧ r.durationSeconds = d.durationSeconds.getD 30)
    ∧ durationOr30 none = 30
    ∧ effectiveDuration 0 = 30
    ∧ (∀ d : Int, 0 ≤ d → 0 < effectiveDuration d)
    ∧ (∀ o : Option Int, (∀ x, o = some x → 0 ≤ x) → 0 < durationOr30 o) := by
  refine ⟨?_, ?_, rfl, rfl, ?_, ?_⟩
  · intro user data geohash serverTime netOk newId res h
    cases user with
    | none => simp [createParkingReport] at h
    | some uid =>
      cases hsan : sanitizeCoord data.latitude data.longitude with
      | none => simp [createParkingReport, hsan] at h
      | some coord =>
        simp only [createParkingReport, hsan] at h
        split_ifs at h
        simp only [Except.ok.injEq] at h
        subst h
        rfl
  · intro bounds snap r hr
    rw [subscribeToParkingReports, List.mem_filterMap] at hr
    obtain ⟨d, hmem, hmap⟩ := hr
    cases hcoord : sanitizeCoord d.latitude d.longitude with
    | none => rw [hcoord] at hmap; simp at hmap
    | some coord =>
      rw [hcoord] at hmap
      simp only [Option.some_inj] at hmap
      subst hmap
      exact ⟨d, hmem, rfl, rfl⟩
  · intro d hd
    unfold effectiveDuration
    split_ifs <;> omega
  · intro o ho
    cases o with
    | none => decide
    | some x =>
      have hx := ho x rfl
      simp only [durationOr30, effectiveDuration]
      split_ifs <;> omega

/-- A concrete create request with no duration, for witnesses. -/
def exCreateNoDur : ParkingReportCreate :=
  { latitude := .num 1, longitude := .num 2, type := .free, rate := none,
    durationSeconds := none }

/-- The document the concrete no-duration create stores. -/
def exCreatedDoc : ReportDoc :=
  { id := "R1", userId := "u", latitude := .num 1, longitude := .num 2,
    geohash := "g", type := .free, rate := none, status := some .open,
    createdAt := .missing, durationSeconds := some 30 }

/-- A concrete snapshot document lacking the duration field. -/
def exDocNoDur : ReportDoc :=
  { id := "D1", userId := "u", latitude := .num 1, longitude := .num 2,
    geohash := "g", type := .free, rate := none, status := some .open,
    createdAt := .missing, durationSeconds := none }

/-- The report the subscription delivers for exDocNoDur. -/
def exReportD1 : ParkingReport :=
  { id := "D1", userId := "u", latitude := 1, longitude := 2,
    geohash := "g", type := .free, rate := none, status := .open,
    createdAt := .missing, durationSeconds := 30 }

/-- A unit bounding box for witnesses. -/
def exBounds : Bounds :=
  { minLat := 0, maxLat := 1, minLng := 0, maxLng := 1 }

/-- Witness for claim C10 at concrete inputs: a create request without a
duration stores 30, a snapshot document without the field is delivered
with duration 30, and concrete nonnegative durations give positive
effective durations. -/
theorem defaultDuration_spec_witness :
    exCreatedDoc.durationSeconds = some ((none : Option Int).getD 30)
    ∧ (∃ d ∈ [exDocNoDur],
        d.id = exReportD1.id
          ∧ exReportD1.durationSeconds = d.durationSeconds.getD 30)
    ∧ 0 < effectiveDuration 45
    ∧ 0 < durationOr30 (some 20) := by
  refine ⟨?_, ?_, ?_, ?_⟩
  · exact defaultDuration_spec.1 (some "u") exCreateNoDur "g" .missing true
      "R1" ("R1", exCreatedDoc) rfl
  · exact defaultDuration_spec.2.1 exBounds [exDocNoDur] exReportD1 (by decide)
  · exact defaultDuration_spec.2.2.2.2.1 45 (by decide)
  · exact defaultDuration_spec.2.2.2.2.2 (some 20)
      (fun x hx => by injection hx with hh; omega)

/-! ## Rendering and the merge layer -/

/-- The fields of the untyped data argument that renderMarker (Map.tsx
lines 936 to 958) reads: local spots supply firestoreId and no status,
cloud reports supply status and no firestoreId. -/
structure MarkerData where
  id : String
  latitude : Rat
  longitude : Rat
  type : SpotType
  status : Option RStatus
  createdAt : TimeData
  durationSeconds : Int
  firestoreId : Option String
deriving DecidableEq, Repr

/-- View of a local spot as renderMarker input. -/
def ParkingSpot.toMarkerData (s : ParkingSpot) : MarkerData :=
  { id := s.id, latitude := s.latitude, longitude := s.longitude,
    type := s.type, status := none, createdAt := s.createdAt,
    durationSeconds := s.durationSeconds, firestoreId := s.firestoreId }

/-- View of a cloud report as renderMarker input. -/
def ParkingReport.toMarkerData (r : ParkingReport) : MarkerData :=
  { id := r.id, latitude := r.latitude, longitude := r.longitude,
    type := r.type, status := some r.status, createdAt := r.createdAt,
    durationSeconds := r.durationSeconds, firestoreId := none }

/-- A marker the map renders, remembering which record produced it. -/
structure RenderedMarker where
  isCloud : Bool
  sourceId : String
  sourceFirestoreId : Option String
  coordinate : Rat × Rat
  color : String
deriving DecidableEq, Repr

/-- Embedding of renderMarker (Map.tsx lines 936 to 958) at a given now:
invalid coordinates render nothing, a resolved cloud report renders
nothing, an expired record renders nothing, otherwise a pin coloured by
getPinStatus with the duration defaulted through d || 30. -/
def renderMarker (now : Int) (data : MarkerData) (isCloud : Bool) :
    Option RenderedMarker :=
  match safeCoord (.num data.latitude) (.num data.longitude) with
  | none => none
  | some coord =>
    if isCloud ∧ data.status = some .resolved then none
    else
      let duration := effectiveDuration data.durationSeconds
      let ps := getPinStatus now data.createdAt duration
      if ps.expired then none
      else some { isCloud := isCloud, sourceId := data.id,
                  sourceFirestoreId := data.firestoreId,
                  coordinate := coord, color := ps.color }

/-- Embedding of the cloud marker filter (Map.tsx lines 974 to 977): drop
reports hidden by an optimistic delete, then drop every report whose id is
carried as the firestoreId of some local spot. -/
def cloudCandidates (cloudReports : List ParkingReport)
    (hiddenCloudIds : List String) (spots : List ParkingSpot) :
    List ParkingReport :=
  (cloudReports.filter fun r => !(hiddenCloudIds.contains r.id)).filter
    fun r => !(spots.any fun s => decide (s.firestoreId = some r.id))

/-- The full rendered marker list (Map.tsx lines 972 to 977): local spots
first, then the surviving cloud reports. -/
def renderedMarkers (now : Int) (spots : List ParkingSpot)
    (cloudReports : List ParkingReport) (hiddenCloudIds : List String) :
    List RenderedMarker :=
  (spots.filterMap fun s => renderMarker now s.toMarkerData false)
    ++ ((cloudCandidates cloudReports hiddenCloudIds spots).filterMap
      fun r => renderMarker now r.toMarkerData true)

/-- A rendered marker is an entity for the remote id rid when it is the
cloud marker of the report rid or the marker of a local spot whose
firestoreId is rid. -/
def entityPred (rid : String) (m : RenderedMarker) : Bool :=
  if m.isCloud then decide (m.sourceId = rid)
  else decide (m.sourceFirestoreId = some rid)

/-- The rendered entities for a remote id. -/
def entitiesFor (rid : String) (markers : List RenderedMarker) :
    List RenderedMarker :=
  markers.filter (entityPred rid)

/-- An expired local spot carrying the remote id R1, for the C5
counterexample. -/
def exExpiredLocal : ParkingSpot :=
  { id := "L1", latitude := 0, longitude := 0, type := .free, rate := none,
    createdAt := .millis 1000, version := 0, durationSeconds := 30,
    firestoreId := some "R1" }

/-- A fresh open cloud report with id R1, for the C5 counterexample. -/
def exFreshCloud : ParkingReport :=
  { id := "R1", userId := "u", latitude := 0, longitude := 0, geohash := "g",
    type := .free, rate := none, status := .open, createdAt := .millis 99000,
    durationSeconds := 30 }

/-- Claim C5 counterexample: with a local spot whose firestoreId is R1 but
which is expired at the current now, and an open cloud report with id R1,
the rendered set contains ZERO entities for R1, not exactly one: the cloud
report is filtered out by the dedup filter while the expired local record
renders nothing. -/
theorem merge_dedup_counterexample :
    exExpiredLocal.firestoreId = some "R1"
    ∧ exFreshCloud.id = "R1"
    ∧ (entitiesFor "R1"
        (renderedMarkers 100000 [exExpiredLocal] [exFreshCloud] [])).length
      = 0 := by
  refine ⟨rfl, rfl, by decide⟩

theorem renderMarker_fields {now : Int} {data : MarkerData} {isCloud : Bool}
    {m : RenderedMarker} (h : renderMarker now data isCloud = some m) :
    m.isCloud = isCloud ∧ m.sourceId = data.id
      ∧ m.sourceFirestoreId = data.firestoreId := by
  unfold renderMarker at h
  cases hc : safeCoord (.num data.latitude) (.num data.longitude) with
  | none => rw [hc] at h; simp at h
  | some coord =>
    rw [hc] at h
    simp only at h
    split_ifs at h
    simp only [Option.some_inj] at h
    subst h
    exact ⟨rfl, rfl, rfl⟩

theorem entitiesFor_localMarkers (now : Int) (rid : String) :
    ∀ spots : List ParkingSpot,
      (entitiesFor rid
        (spots.filterMap fun s => renderMarker now s.toMarkerData false)).length
      = (spots.filter fun s => decide (s.firestoreId = some rid)
          && (renderMarker now s.toMarkerData false).isSome).length := by
  intro spots
  induction spots with
  | nil => rfl
  | cons s rest ih =>
    rw [List.filterMap_cons, List.filter_cons]
    cases hr : renderMarker now s.toMarkerData false with
    | none => simpa [hr] using ih
    | some m =>
      obtain ⟨hcloud, _, hfid⟩ := renderMarker_fields hr
      rw [entitiesFor, List.filter_cons]
      by_cases hid : s.firestoreId = some rid
      · have hp : entityPred rid m = true := by
          simp [entityPred, hcloud, hfid, ParkingSpot.toMarkerData, hid]
        simp [hr, hp, hid, entitiesFor] at ih ⊢
        exact ih
      · have hp : entityPred rid m = false := by
          simp [entityPred, hcloud, hfid, ParkingSpot.toMarkerData, hid]
        simp [hr, hp, hid, entitiesFor] at ih ⊢
        exact ih

/-- Claim C5 amended: for every local spot whose firestoreId equals the id
of a report in the current cloud snapshot, the cloud report is filtered
out of the rendered set (no cloud entity for that id is ever rendered, so
at most the local record renders and the local record remains
authoritative); the entities rendered for that id are exactly the local
records carrying it that pass renderMarker, which is one when the local
record is renderable but zero when it is expired or invalid. -/
theorem merge_dedup_amended (now : Int) (spots : List ParkingSpot)
    (cloudReports : List ParkingReport) (hiddenCloudIds : List String)
    (rid : String)
    (hs : (spots.any fun s => decide (s.firestoreId = some rid)) = true) :
    ((cloudCandidates cloudReports hiddenCloudIds spots).all
      fun r => decide (r.id ≠ rid)) = true
    ∧ (entitiesFor rid
        (renderedMarkers now spots cloudReports hiddenCloudIds)).length
      = (spots.filter fun s => decide (s.firestoreId = some rid)
          && (renderMarker now s.toMarkerData false).isSome).length
    ∧ ∀ m ∈ entitiesFor rid
        (renderedMarkers now spots cloudReports hiddenCloudIds),
        m.isCloud = false := by
  have hcand : ∀ r ∈ cloudCandidates cloudReports hiddenCloudIds spots,
      r.id ≠ rid := by
    intro r hr
    rw [cloudCandidates, List.mem_filter] at hr
    intro hrid
    rw [hrid] at hr
    rw [hs] at hr
    simp at hr
  have hcloudEmpty : entitiesFor rid
      ((cloudCandidates cloudReports hiddenCloudIds spots).filterMap
        fun r => renderMarker now r.toMarkerData true) = [] := by
    rw [entitiesFor, List.filter_eq_nil_iff]
    intro m hm
    rw [List.mem_filterMap] at hm
    obtain ⟨r, hrmem, hrsome⟩ := hm
    obtain ⟨hcloud, hsrc, _⟩ := renderMarker_fields hrsome
    simp [entityPred, hcloud, hsrc, ParkingReport.toMarkerData,
      hcand r hrmem]
  refine ⟨?_, ?_, ?_⟩
  · rw [List.all_eq_true]
    intro r hr
    simpa using hcand r hr
  · rw [renderedMarkers, entitiesFor, List.filter_append]
    rw [entitiesFor] at hcloudEmpty
    rw [hcloudEmpty, List.append_nil]
    exact entitiesFor_localMarkers now rid spots
  · intro m hm
    rw [renderedMarkers, entitiesFor, List.filter_append, List.mem_append] at hm
    rcases hm with hm | hm
    · rw [List.mem_filter] at hm
      obtain ⟨hmem, _⟩ := hm
      rw [List.mem_filterMap] at hmem
      obtain ⟨s, _, hsome⟩ := hmem
      exact (renderMarker_fields hsome).1
    · rw [entitiesFor] at hcloudEmpty
      rw [hcloudEmpty] at hm
      simp at hm

/-- An unexpired local spot carrying the remote id R1, for the C5
witness. -/
def exFreshLocal : ParkingSpot :=
  { id := "L2", latitude := 0, longitude := 0, type := .free, rate := none,
    createdAt := .millis 99000, version := 0, durationSeconds := 30,
    firestoreId := some "R1" }

/-- Witness for the amended claim C5 at concrete inputs: with a renderable
local spot carrying R1 and an open cloud report R1, the cloud report is
excluded and exactly one entity, the local one, is rendered for R1. -/
theorem merge_dedup_amended_witness :
    ((cloudCandidates [exFreshCloud] [] [exFreshLocal]).all
      fun r => decide (r.id ≠ "R1")) = true
    ∧ (entitiesFor "R1"
        (renderedMarkers 100000 [exFreshLocal] [exFreshCloud] [])).length
      = ([exFreshLocal].filter fun s => decide (s.firestoreId = some "R1")
          && (renderMarker 100000 s.toMarkerData false).isSome).length
    ∧ ∀ m ∈ entitiesFor "R1"
        (renderedMarkers 100000 [exFreshLocal] [exFreshCloud] []),
        m.isCloud = false :=
  merge_dedup_amended 100000 [exFreshLocal] [exFreshCloud] [] "R1" (by decide)

/-! ## Arrival detector and undo -/

/-- A position sample (Map.tsx line 192). -/
structure PosSample where
  lat : Rat
  lon : Rat
  t : Int
deriving DecidableEq, Repr

/-- Detector constant (Map.tsx line 197). -/
def ARRIVE_RADIUS_M : Rat := 1000000

/-- Detector constant (Map.tsx line 198). -/
def DWELL_MS : Int := 1000

/-- Detector constant (Map.tsx line 199). -/
def SAMPLE_WINDOW : Nat := 8

/-- Detector constant (Map.tsx line 200). -/
def MOVEMENT_VARIANCE_M : Rat := 9999

/-- Undo window constant (Map.tsx line 203). -/
def UNDO_WINDOW_MS : Int := 45000

/-- The signature of distanceMeters (Map.tsx lines 454 to 471).  The
source computes the haversine formula with trigonometric double
arithmetic; the detector logic is independent of that formula, so the
embedding abstracts the distance function as a parameter and the theorems
below hold for every distance function. -/
abbrev DistFn := Rat → Rat → Rat → Rat → Rat

/-- The undo banner state (Map.tsx lines 205 to 209). -/
structure UndoState where
  reportId : String
  expiresAt : Int
  isProcessing : Bool
deriving DecidableEq, Repr

/-- One remote report document as the claim and undo updates touch it
(the resolution timestamp, set alongside, is read by no claim). -/
structure ReportRecord where
  status : RStatus
  resolvedBy : Option String
deriving DecidableEq, Repr

/-- The remote collection, keyed by document id. -/
abbrev ReportsDB := List (String × ReportRecord)

/-- An updateDoc on one document id. -/
def setReport (db : ReportsDB) (rid : String) (rec : ReportRecord) :
    ReportsDB :=
  db.map fun p => if p.1 = rid then (p.1, rec) else p

/-- The stored status of a document. -/
def reportStatus (db : ReportsDB) (rid : String) : Option RStatus :=
  (db.find? fun p => p.1 == rid).map fun p => p.2.status

/-- Embedding of markReportTaken (parkingReports.ts lines 177 to 187):
sets status resolved and records the resolver. -/
def markReportTaken (db : ReportsDB) (rid : String) (uid : String) :
    ReportsDB :=
  setReport db rid { status := .resolved, resolvedBy := some uid }

/-- The mutable state the arrival detector and the undo flow touch
(Map.tsx lines 188 to 211). -/
structure DetectorState where
  samples : List PosSample
  dwellStart : Option Int
  alreadyAutoTaken : List String
  lastReported : Option LastReported
  isAutoTaking : Bool
  undoState : Option UndoState
deriving DecidableEq, Repr

/-- Set.add on the already-auto-taken ids. -/
def addId (ids : List String) (rid : String) : List String :=
  if ids.contains rid then ids else rid :: ids

/-- Embedding of showUndoBanner (Map.tsx lines 213 to 228): any previous
undo opportunity is discarded and a fresh one opens, expiring
UNDO_WINDOW_MS from now. -/
def showUndoBanner (st : DetectorState) (rid : String) (now : Int) :
    DetectorState :=
  { st with
      undoState := some ({ reportId := rid, expiresAt := now + UNDO_WINDOW_MS, isProcessing := false }) }

/-- Embedding of autoMarkTaken (Map.tsx lines 473 to 492).  uid is the
signed-in user and netOk the outcome of the remote markReportTaken call.
The id is added to the already-auto-taken set before the remote call; on
success the report is resolved remotely, the undo banner opens and the
last-reported pointer is cleared; on failure the id is rolled back out of
the set. -/
def autoMarkTaken (uid : Option String) (netOk : Bool) (st : DetectorState)
    (db : ReportsDB) (fid : String) (now : Int) :
    DetectorState × ReportsDB :=
  match uid with
  | none => (st, db)
  | some u =>
    if st.isAutoTaking then (st, db)
    else
      let stAdded :=
        { st with alreadyAutoTaken := addId st.alreadyAutoTaken fid }
      if netOk then
        ({ showUndoBanner stAdded fid now with
            lastReported := none, isAutoTaking := false },
         markReportTaken db fid u)
      else
        ({ stAdded with
            alreadyAutoTaken := stAdded.alreadyAutoTaken.erase fid,
            isAutoTaking := false }, db)

/-- The sliding window update (Map.tsx lines 500 to 502): append the new
sample and keep the last SAMPLE_WINDOW entries (slice with a negative
index). -/
def updatedWindow (samples : List PosSample) (lat lon : Rat) (now : Int) :
    List PosSample :=
  let l := samples ++ [{ lat := lat, lon := lon, t := now }]
  l.drop (l.length - SAMPLE_WINDOW)

/-- Math.max over the mapped window; the source substitutes 9999 when the
window has no oldest sample, which cannot happen right after an append. -/
def listMax : List Rat → Rat
  | [] => 9999
  | x :: xs => xs.foldl max x

/-- The maximum deviation of every window sample from the oldest window
sample (Map.tsx lines 512 to 519). -/
def maxDeviation (distf : DistFn) (samples : List PosSample) : Rat :=
  match samples with
  | [] => 9999
  | base :: rest =>
    listMax ((base :: rest).map fun p => distf p.lat p.lon base.lat base.lon)

/-- Whether the incoming sample is inside the arrival radius and the
updated window is stationary (Map.tsx lines 504 to 521). -/
def sampleQualifies (distf : DistFn) (lr : LastReported)
    (samples : List PosSample) (lat lon : Rat) : Bool :=
  decide (distf lat lon lr.latitude lr.longitude ≤ ARRIVE_RADIUS_M)
    && decide (maxDeviation distf samples ≤ MOVEMENT_VARIANCE_M)

/-- Embedding of onLocationUpdate (Map.tsx lines 494 to 533): nothing
happens without a last-reported spot or once its id is in the
already-auto-taken set; otherwise the window slides, and a qualifying
sample either records now as the dwell start or, once the dwell duration
has elapsed, fires autoMarkTaken, while a disqualifying sample clears the
dwell start. -/
def onLocationUpdate (distf : DistFn) (uid : Option String) (netOk : Bool)
    (st : DetectorState) (db : ReportsDB) (lat lon : Rat) (now : Int) :
    DetectorState × ReportsDB :=
  match st.lastReported with
  | none => (st, db)
  | some lr =>
    if st.alreadyAutoTaken.contains lr.firestoreId then (st, db)
    else
      let samples := updatedWindow st.samples lat lon now
      let st1 := { st with samples := samples }
      if sampleQualifies distf lr samples lat lon then
        let dwellStart := st1.dwellStart.getD now
        let st2 := { st1 with dwellStart := some dwellStart }
        if DWELL_MS ≤ now - dwellStart then
          autoMarkTaken uid netOk st2 db lr.firestoreId now
        else (st2, db)
      else ({ st1 with dwellStart := none }, db)

/-- Embedding of undoAutoTaken (Map.tsx lines 230 to 267): without an
active undo opportunity nothing happens; after the window has expired the
banner is dismissed and no remote update is issued; while processing
nothing happens; otherwise the remote document is reopened and on success
the id leaves the already-auto-taken set, while on failure the state is
kept with the processing flag dropped. -/
def undoAutoTaken (netOk : Bool) (st : DetectorState) (db : ReportsDB)
    (now : Int) : DetectorState × ReportsDB :=
  match st.undoState with
  | none => (st, db)
  | some u =>
    if u.expiresAt < now then ({ st with undoState := none }, db)
    else if u.isProcessing then (st, db)
    else if netOk then
      ({ st with
          alreadyAutoTaken := st.alreadyAutoTaken.erase u.reportId,
          undoState := none },
       setReport db u.reportId { status := .open, resolvedBy := none })
    else
      ({ st with undoState := some ({ u with isProcessing := false }) }, db)

theorem addId_contains (ids : List String) (rid : String) :
    (addId ids rid).contains rid = true := by
  unfold addId
  split_ifs with h
  · exact h
  · simp [List.contains_cons]

/-- Claim C6: per incoming position sample, given a last-reported spot
whose id is not yet auto-claimed: a qualifying sample (inside the arrival
radius with a stationary window) records now as the dwell start when no
dwell start is recorded, without claiming; a qualifying sample whose dwell
has reached the configured dwell duration triggers the auto-claim, which
resolves the report remotely, opens the undo window, clears the
last-reported pointer and puts the id into the already-auto-claimed set;
a sample for an id already in that set changes nothing, so the claim can
never fire twice; a disqualifying sample clears the dwell start; and a
qualifying sample before the dwell duration has elapsed keeps the dwell
start and does not claim. -/
theorem onLocationUpdate_spec :
    (∀ (distf : DistFn) (uid : Option String) (netOk : Bool)
        (st : DetectorState) (db : ReportsDB) (lat lon : Rat) (now : Int)
        (lr : LastReported),
      st.lastReported = some lr →
      st.alreadyAutoTaken.contains lr.firestoreId = false →
      sampleQualifies distf lr (updatedWindow st.samples lat lon now) lat lon
        = true →
      st.dwellStart = none →
      onLocationUpdate distf uid netOk st db lat lon now =
        ({ st with
            samples := updatedWindow st.samples lat lon now,
            dwellStart := some now }, db))
    ∧ (∀ (distf : DistFn) (u : String) (st : DetectorState) (db : ReportsDB)
        (lat lon : Rat) (now t0 : Int) (lr : LastReported),
      st.lastReported = some lr →
      st.alreadyAutoTaken.contains lr.firestoreId = false →
      sampleQualifies distf lr (updatedWindow st.samples lat lon now) lat lon
        = true →
      st.dwellStart = some t0 →
      DWELL_MS ≤ now - t0 →
      st.isAutoTaking = false →
      onLocationUpdate distf (some u) true st db lat lon now =
        ({ st with
            samples := updatedWindow st.samples lat lon now,
            dwellStart := some t0,
            alreadyAutoTaken := addId st.alreadyAutoTaken lr.firestoreId,
            lastReported := none,
            isAutoTaking := false,
            undoState := some ({ reportId := lr.firestoreId, expiresAt := now + UNDO_WINDOW_MS, isProcessing := false }) },
         markReportTaken db lr.firestoreId u)
      ∧ ((onLocationUpdate distf (some u) true st db lat lon
            now).1.alreadyAutoTaken.contains lr.firestoreId) = true)
    ∧ (∀ (distf : DistFn) (uid : Option String) (netOk : Bool)
        (st : DetectorState) (db : ReportsDB) (lat lon : Rat) (now : Int)
        (lr : LastReported),
      st.lastReported = some lr →
      st.alreadyAutoTaken.contains lr.firestoreId = true →
      onLocationUpdate distf uid netOk st db lat lon now = (st, db))
    ∧ (∀ (distf : DistFn) (uid : Option String) (netOk : Bool)
        (st : DetectorState) (db : ReportsDB) (lat lon : Rat) (now : Int)
        (lr : LastReported),
      st.lastReported = some lr →
      st.alreadyAutoTaken.contains lr.firestoreId = false →
      sampleQualifies distf lr (updatedWindow st.samples lat lon now) lat lon
        = false →
      onLocationUpdate distf uid netOk st db lat lon now =
        ({ st with
            samples := updatedWindow st.samples lat lon now,
            dwellStart := none }, db))
    ∧ (∀ (distf : DistFn) (uid : Option String) (netOk : Bool)
        (st : DetectorState) (db : ReportsDB) (lat lon : Rat) (now t0 : Int)
        (lr : LastReported),
      st.lastReported = some lr →
      st.alreadyAutoTaken.contains lr.firestoreId = false →
      sampleQualifies distf lr (updatedWindow st.samples lat lon now) lat lon
        = true →
      st.dwellStart = some t0 →
      now - t0 < DWELL_MS →
      onLocationUpdate distf uid netOk st db lat lon now =
        ({ st with
            samples := updatedWindow st.samples lat lon now,
            dwellStart := some t0 }, db)) := by
  refine ⟨?_, ?_, ?_, ?_, ?_⟩
  · intro distf uid netOk st db lat lon now lr hlr hguard hq hds
    simp only [onLocationUpdate, hlr, hguard, hq, hds]
    simp [DWELL_MS]
  · intro distf u st db lat lon now t0 lr hlr hguard hq hds hdwell hbusy
    have hmain : onLocationUpdate distf (some u) true st db lat lon now =
        ({ st with
            samples := updatedWindow st.samples lat lon now,
            dwellStart := some t0,
            alreadyAutoTaken := addId st.alreadyAutoTaken lr.firestoreId,
            lastReported := none,
            isAutoTaking := false,
            undoState := some ({ reportId := lr.firestoreId, expiresAt := now + UNDO_WINDOW_MS, isProcessing := false }) },
         markReportTaken db lr.firestoreId u) := by
      simp only [onLocationUpdate, hlr, hguard, hq, hds]
      simp only [Option.getD_some]
      rw [if_pos hdwell]
      simp only [autoMarkTaken, hbusy]
      simp [showUndoBanner]
    refine ⟨hmain, ?_⟩
    rw [hmain]
    exact addId_contains st.alreadyAutoTaken lr.firestoreId
  · intro distf uid netOk st db lat lon now lr hlr hguard
    simp only [onLocationUpdate, hlr, hguard]
    simp
  · intro distf uid netOk st db lat lon now lr hlr hguard hq
    simp only [onLocationUpdate, hlr, hguard, hq]
    simp
  · intro distf uid netOk st db lat lon now t0 lr hlr hguard hq hds hdwell
    have hneg : ¬(DWELL_MS ≤ now - t0) := by omega
    simp only [onLocationUpdate, hlr, hguard, hq, hds]
    simp [hneg]

/-- A trivial distance function for witnesses (the detector theorems hold
for every distance function). -/
def exDistZero : DistFn := fun _ _ _ _ => 0

/-- A concrete last-reported spot for witnesses. -/
def exLastReported : LastReported :=
  { firestoreId := "R1", latitude := 0, longitude := 0, createdAt := 0 }

/-- A detector state one qualifying sample away from the auto-claim. -/
def exDetTrigger : DetectorState :=
  { samples := [], dwellStart := some 0, alreadyAutoTaken := [],
    lastReported := some exLastReported, isAutoTaking := false,
    undoState := none }

/-- A detector state whose last-reported id is already auto-claimed. -/
def exDetGuarded : DetectorState :=
  { exDetTrigger with alreadyAutoTaken := ["R1"] }

/-- A one-document remote collection for witnesses. -/
def exDb : ReportsDB := [("R1", { status := .open, resolvedBy := none })]

/-- Witness for claim C6 at concrete inputs: a qualifying sample at
now = 1000 with dwell start 0 fires the auto-claim exactly as described,
and on a state whose id is already auto-claimed the same sample changes
nothing. -/
theorem onLocationUpdate_spec_witness :
    (onLocationUpdate exDistZero (some "u") true exDetTrigger exDb 0 0 1000 =
      ({ exDetTrigger with
          samples := updatedWindow exDetTrigger.samples 0 0 1000,
          dwellStart := some 0,
          alreadyAutoTaken := addId exDetTrigger.alreadyAutoTaken "R1",
          lastReported := none,
          isAutoTaking := false,
          undoState := some ({ reportId := "R1", expiresAt := 1000 + UNDO_WINDOW_MS, isProcessing := false }) },
       markReportTaken exDb "R1" "u")
      ∧ (onLocationUpdate exDistZero (some "u") true exDetTrigger exDb 0 0
          1000).1.alreadyAutoTaken.contains "R1" = true)
    ∧ onLocationUpdate exDistZero (some "u") true exDetGuarded exDb 0 0 1000
      = (exDetGuarded, exDb) :=
  ⟨onLocationUpdate_spec.2.1 exDistZero "u" exDetTrigger exDb 0 0 1000 0
      exLastReported rfl (by decide) (by decide) rfl (by decide) rfl,
   onLocationUpdate_spec.2.2.1 exDistZero (some "u") true exDetGuarded exDb
      0 0 1000 exLastReported rfl (by decide)⟩

theorem erase_not_contains {l : List String} {a : String} (h : l.Nodup) :
    (l.erase a).contains a = false := by
  by_contra hc
  rw [Bool.not_eq_false] at hc
  have hmem : a ∈ l.erase a := List.mem_of_elem_eq_true hc
  exact ((List.Nodup.mem_erase_iff h).mp hmem).1 rfl

theorem reportStatus_setReport (db : ReportsDB) (rid : String)
    (rec : ReportRecord) (h : (db.any fun p => decide (p.1 = rid)) = true) :
    reportStatus (setReport db rid rec) rid = some rec.status := by
  induction db with
  | nil => simp at h
  | cons p rest ih =>
    rw [setReport, List.map_cons]
    by_cases hp : p.1 = rid
    · rw [if_pos hp, reportStatus, List.find?_cons_of_pos _ (by simp [hp])]
      rfl
    · rw [if_neg hp, reportStatus, List.find?_cons_of_neg _ (by simp [hp])]
      have h2 : (rest.any fun q => decide (q.1 = rid)) = true := by
        simpa [hp] using h
      have := ih h2
      rw [reportStatus, setReport] at this
      exact this

/-- Claim C7: the undo window constant is 45 seconds; invoking undo while
the window is still open (and not already processing) reopens the report
remotely, so its stored status returns to open, and removes its id from
the already-auto-claimed set, permitting a later auto-claim of the same
id; invoking undo after the window has expired only dismisses the banner:
no remote update is issued, the collection is untouched, and a claimed
report stays claimed. -/
theorem undoAutoTaken_spec :
    UNDO_WINDOW_MS = 45000
    ∧ (∀ (st : DetectorState) (db : ReportsDB) (now : Int) (u : UndoState),
      st.undoState = some u →
      now ≤ u.expiresAt →
      u.isProcessing = false →
      undoAutoTaken true st db now =
        ({ st with
            alreadyAutoTaken := st.alreadyAutoTaken.erase u.reportId,
            undoState := none },
         setReport db u.reportId { status := .open, resolvedBy := none })
      ∧ ((db.any fun p => decide (p.1 = u.reportId)) = true →
          reportStatus (undoAutoTaken true st db now).2 u.reportId
            = some .open)
      ∧ (st.alreadyAutoTaken.Nodup →
          ((undoAutoTaken true st db
            now).1.alreadyAutoTaken.contains u.reportId) = false))
    ∧ (∀ (netOk : Bool) (st : DetectorState) (db : ReportsDB) (now : Int)
        (u : UndoState),
      st.undoState = some u →
      u.expiresAt < now →
      undoAutoTaken netOk st db now = ({ st with undoState := none }, db)) := by
  refine ⟨rfl, ?_, ?_⟩
  · intro st db now u hus hle hproc
    have hmain : undoAutoTaken true st db now =
        ({ st with
            alreadyAutoTaken := st.alreadyAutoTaken.erase u.reportId,
            undoState := none },
         setReport db u.reportId { status := .open, resolvedBy := none }) := by
      simp only [undoAutoTaken, hus, hproc]
      rw [if_neg (by omega)]
      simp
    refine ⟨hmain, ?_, ?_⟩
    · intro hdb
      rw [hmain]
      exact reportStatus_setReport db u.reportId _ hdb
    · intro hnd
      rw [hmain]
      exact erase_not_contains hnd
  · intro netOk st db now u hus hgt
    simp only [undoAutoTaken, hus]
    rw [if_pos hgt]

/-- The active undo opportunity for witnesses. -/
def exUndoState : UndoState :=
  { reportId := "R1", expiresAt := 45000, isProcessing := false }

/-- A state holding the active undo opportunity for R1, which is in the
already-auto-claimed set. -/
def exDetUndo : DetectorState :=
  { samples := [], dwellStart := none, alreadyAutoTaken := ["R1"],
    lastReported := none, isAutoTaking := false,
    undoState := some exUndoState }

/-- The collection with R1 resolved, for witnesses. -/
def exDbResolved : ReportsDB :=
  [("R1", { status := .resolved, resolvedBy := some "u" })]

/-- Witness for claim C7 at concrete inputs: undo at now = 1000 (within
the 45 second window) reopens R1 and removes it from the
already-auto-claimed set; undo at now = 50000 (window expired) only
dismisses the banner and leaves the collection untouched. -/
theorem undoAutoTaken_spec_witness :
    (undoAutoTaken true exDetUndo exDbResolved 1000 =
      ({ exDetUndo with
          alreadyAutoTaken := exDetUndo.alreadyAutoTaken.erase "R1",
          undoState := none },
       setReport exDbResolved "R1" { status := .open, resolvedBy := none })
      ∧ reportStatus (undoAutoTaken true exDetUndo exDbResolved 1000).2 "R1"
          = some .open
      ∧ ((undoAutoTaken true exDetUndo exDbResolved
          1000).1.alreadyAutoTaken.contains "R1") = false)
    ∧ undoAutoTaken true exDetUndo exDbResolved 50000 =
      ({ exDetUndo with undoState := none }, exDbResolved) := by
  have h := undoAutoTaken_spec.2.1 exDetUndo exDbResolved 1000 exUndoState
    rfl (by decide) rfl
  exact ⟨⟨h.1, h.2.1 (by decide), h.2.2 (by decide)⟩,
    undoAutoTaken_spec.2.2 true exDetUndo exDbResolved 50000 exUndoState
      rfl (by decide)⟩

end ParkingFinder
